import Mathlib

/-!
Verification of the AIMagna ETL frontend workflow-event handling.

Shallow embedding of:
* the `ChatWindow` WebSocket event handler (src/unnamed/part_000, lines 55-180;
  identical code in
  src/Sample-DataSet-CommercialLending/frontend/src/components/ChatInterface/ChatWindow.tsx,
  lines 68-193),
* the `HITLApprovalCard` decision handlers and submit path (src/unnamed/part_001,
  lines 56-155),
* the `ETLProgressCard` smoothed-progress logic and step table (src/unnamed/part_001,
  lines 492-536).

TypeScript string-literal unions are embedded as Lean inductives where the source
declares them as closed unions (`StepStatus`, `MappingStatus`); the loosely typed
`status` / `type` fields of a `WorkflowUpdate` event stay `String`, as in the source.
-/

namespace AIMagna

/-- Step record status: the `status` field of the `ETLStep` interface
(src/unnamed/part_001, line 474). -/
inductive StepStatus
  | pending
  | running
  | completed
  | error
deriving DecidableEq

/-- One ETL step record, the `ETLStep` interface (src/unnamed/part_001, lines 471-477). -/
structure ETLStep where
  name : String
  status : StepStatus
  message : Option String
deriving DecidableEq

/-- The run-record fields the ChatWindow handler reads and writes
(`currentRun` in the chat store; fields as set in `handleGCSWorkflowStarted`
and the two `updateCurrentRun` call sites of src/unnamed/part_000). -/
structure Run where
  run_id : String
  status : String
  current_step : String
  progress : Int
  error : Option String
deriving DecidableEq

/-- Mapping-candidate status: the closed union of the `MappingCandidate` interface
(src/unnamed/part_001, line 47). -/
inductive MappingStatus
  | pending
  | approved
  | rejected
deriving DecidableEq

/-- The `MappingCandidate` interface (src/unnamed/part_001, lines 39-48);
`confidence` is a numeric score, embedded as a rational. -/
structure MappingCandidate where
  mapping_id : String
  source_table : String
  source_column : String
  target_table : String
  target_column : String
  confidence : Rat
  rationale : String
  status : MappingStatus
deriving DecidableEq

/-- A `WorkflowUpdate` event as consumed by the ChatWindow WebSocket callback.
The `data` payload is variant-shaped in the source (`(update as any).data`);
the fields the handler actually reads are embedded individually, each optional
exactly as the source reads them through `?.`. -/
structure WorkflowUpdate where
  type : String
  step : String
  status : String
  message : Option String
  progress : Int
  error : Option String
  data_mappings : Option (List MappingCandidate)
  data_transformations : Option (List String)
  data_reviewed : Option Nat
  data_pending : Option Nat
deriving DecidableEq

/-- The ChatWindow component state touched by the WebSocket callback:
`currentRun` and `etlSteps` live in the chat store, the rest are `useState`
hooks plus the `workflowCompletedRef` ref (src/unnamed/part_000, lines 36-52). -/
structure ChatState where
  currentRun : Run
  etlSteps : List ETLStep
  workflowCompleted : Bool
  workflowCompletedRef : Bool
  hitlMappings : List MappingCandidate
  showHitlApproval : Bool
  hitlReady : Bool
  workflowMappings : List MappingCandidate
  workflowTransformations : List String
deriving DecidableEq

/-- Modelled from the spec: the chat store's `updateETLStep(name, status, message)`
(imported from `stores/chatStore`, which is not among the provided sources) —
per spec §3, `steps` is an ordered mapping from step name to
`StepRecord { status, message, updated_at }`, so updating a step by name sets
that record's status and message and touches no other record. -/
def updateETLStep (steps : List ETLStep) (name : String) (st : StepStatus)
    (msg : Option String) : List ETLStep :=
  steps.map fun s => if s.name = name then { s with status := st, message := msg } else s

/-- The `etlSteps.forEach` of the `workflow_complete` branch (src/unnamed/part_000,
lines 67-71): every step still `pending` or `running` is marked `completed`
(`updateETLStep(step.name, 'completed')`, message argument absent). -/
def completeSteps (steps : List ETLStep) : List ETLStep :=
  steps.map fun st =>
    if st.status = StepStatus.pending ∨ st.status = StepStatus.running then
      { st with status := StepStatus.completed, message := none }
    else st

/-- The `updateCurrentRun` patch of the `workflow_complete` branch (lines 74-78):
`status: 'completed', current_step: 'completed', progress: 100`. -/
def completeRun (r : Run) : Run :=
  { r with status := "completed", current_step := "completed", progress := 100 }

/-- The ChatWindow WebSocket event handler, src/unnamed/part_000 lines 55-180
(the body guarded by `if (currentRun)`; the run exists whenever the socket for
its `run_id` is open, so the embedding models that branch). The chat store's
`updateCurrentRun(patch)` merges the patch into the current run, per spec §3
("patched, never replaced"). Lines 131-135 re-test
`update.type === 'workflow_complete'` after the line-85 early return and are
therefore unreachable; they are omitted. -/
def handleEvent (update : WorkflowUpdate) (s : ChatState) : ChatState :=
  -- PRIORITY 1: workflow_complete (lines 59-86)
  if update.type = "workflow_complete" then
    { s with
      workflowCompletedRef := true
      workflowCompleted := true
      etlSteps := completeSteps s.etlSteps
      currentRun := completeRun s.currentRun
      showHitlApproval := false
      hitlMappings := []
      hitlReady := false }
  -- PRIORITY 2: latched completion (lines 91-99)
  else if s.workflowCompletedRef = true ∨ s.workflowCompleted = true then
    let stepStatus : StepStatus :=
      if update.status = "completed" then StepStatus.completed
      else if update.status = "failed" ∨ update.status = "error" then StepStatus.error
      else StepStatus.running
    { s with etlSteps := updateETLStep s.etlSteps update.step stepStatus update.message }
  -- PRIORITY 3: hitl_approval_required (lines 102-118)
  else if update.type = "hitl_approval_required" then
    let mappings := update.data_mappings.getD []
    let msg := toString mappings.length ++ " mapping(s) awaiting approval"
    { s with
      etlSteps := updateETLStep s.etlSteps ("hitl") StepStatus.running (some msg)
      hitlMappings := mappings
      showHitlApproval := true
      hitlReady := true }
  else
    -- store mapper mappings (lines 121-123)
    let s := if update.step = "mapper" ∧ update.status = "completed" ∧
        update.data_mappings.isSome = true then
      { s with workflowMappings := update.data_mappings.getD [] } else s
    -- store transform transformations (lines 126-128)
    let s := if update.step = "transform" ∧ update.status = "completed" ∧
        update.data_transformations.isSome = true then
      { s with workflowTransformations := update.data_transformations.getD [] } else s
    -- hitl_approval_complete / hitl_complete (lines 138-142, no early return)
    let s := if update.type = "hitl_approval_complete" ∨ update.type = "hitl_complete" then
      { s with showHitlApproval := false, hitlMappings := [], hitlReady := false } else s
    -- hitl_progress (lines 145-149)
    if update.type = "hitl_progress" then
      let msg := toString (update.data_reviewed.getD 0) ++ " reviewed, "
        ++ toString (update.data_pending.getD 0) ++ " remaining"
      { s with etlSteps := updateETLStep s.etlSteps ("hitl") StepStatus.running (some msg) }
    else
      -- PRIORITY 4: regular updates (lines 151-178)
      let workflowStatus : String :=
        if update.status = "completed" ∧ update.type = "workflow_update" then ("running")
        else if update.status = "failed" ∨ update.status = "error" then ("failed")
        else ("running")
      let stepStatus : StepStatus :=
        if update.status = "completed" then StepStatus.completed
        else if update.status = "failed" ∨ update.status = "error" then StepStatus.error
        else if update.status = "started" ∨ update.status = "running" ∨
            update.status = "waiting" ∨ update.status = "waiting_for_approval" then
          StepStatus.running
        else StepStatus.pending
      { s with
        currentRun := { s.currentRun with
          status := workflowStatus, current_step := update.step,
          progress := update.progress, error := update.error }
        etlSteps := updateETLStep s.etlSteps update.step stepStatus update.message }

/-- Folding a stream of WebSocket events through the handler. -/
def handleEvents (s : ChatState) (es : List WorkflowUpdate) : ChatState :=
  es.foldl (fun st e => handleEvent e st) s

/-- The post-terminal step-status mapping of the PRIORITY 2 branch
(src/unnamed/part_000, lines 93-96). -/
def postTerminalStepStatus (status : String) : StepStatus :=
  if status = "completed" then StepStatus.completed
  else if status = "failed" ∨ status = "error" then StepStatus.error
  else StepStatus.running

/-- A run state is terminal-latched once `workflow_complete` has been handled:
the ref latch is set and the run record shows the definitive completion values
(src/unnamed/part_000, lines 63-78). -/
def terminalLatched (s : ChatState) : Prop :=
  s.workflowCompletedRef = true ∧ s.currentRun.status = "completed" ∧
    s.currentRun.current_step = "completed" ∧ s.currentRun.progress = 100

instance (s : ChatState) : Decidable (terminalLatched s) := by
  unfold terminalLatched; infer_instance

/-! ## HITLApprovalCard (src/unnamed/part_001, lines 56-155) -/

/-- Source `handleApprove` (src/unnamed/part_001, lines 72-76): mark the candidate with the
given `mapping_id` approved. -/
def handleApprove (mappingId : String) (ms : List MappingCandidate) : List MappingCandidate :=
  ms.map fun m =>
    if m.mapping_id = mappingId then { m with status := MappingStatus.approved } else m

/-- Source `handleReject` (lines 78-82): mark the candidate with the given `mapping_id` rejected. -/
def handleReject (mappingId : String) (ms : List MappingCandidate) : List MappingCandidate :=
  ms.map fun m =>
    if m.mapping_id = mappingId then { m with status := MappingStatus.rejected } else m

/-- Source `handleApproveAll` (lines 84-88). -/
def handleApproveAll (ms : List MappingCandidate) : List MappingCandidate :=
  ms.map fun m => { m with status := MappingStatus.approved }

/-- Source `handleRejectAll` (lines 90-94). -/
def handleRejectAll (ms : List MappingCandidate) : List MappingCandidate :=
  ms.map fun m => { m with status := MappingStatus.rejected }

/-- Source `handleApproveSelected` (lines 116-121); `selectedIds` embeds the `Set<string>`
of checked rows. -/
def handleApproveSelected (selectedIds : List String) (ms : List MappingCandidate) :
    List MappingCandidate :=
  ms.map fun m =>
    if m.mapping_id ∈ selectedIds then { m with status := MappingStatus.approved } else m

/-- Source `handleRejectSelected` (lines 123-128). -/
def handleRejectSelected (selectedIds : List String) (ms : List MappingCandidate) :
    List MappingCandidate :=
  ms.map fun m =>
    if m.mapping_id ∈ selectedIds then { m with status := MappingStatus.rejected } else m

/-- One decision of the approval batch posted by `handleSubmit`
(lines 135-138: `{ mapping_id, status }`). -/
structure ApprovalDecision where
  mapping_id : String
  status : MappingStatus
deriving DecidableEq

/-- The decision batch built by `handleSubmit` (lines 135-138):
`status: m.status === 'pending' ? 'approved' : m.status`. -/
def submitApprovals (ms : List MappingCandidate) : List ApprovalDecision :=
  ms.map fun m =>
    { mapping_id := m.mapping_id
      status := if m.status = MappingStatus.pending then MappingStatus.approved else m.status }

/-- Source `pendingCount` (line 152). -/
def pendingCount (ms : List MappingCandidate) : Nat :=
  (ms.filter fun m => m.status = MappingStatus.pending).length

/-- Source `approvedCount` (line 153). -/
def approvedCount (ms : List MappingCandidate) : Nat :=
  (ms.filter fun m => m.status = MappingStatus.approved).length

/-- Source `rejectedCount` (line 154). -/
def rejectedCount (ms : List MappingCandidate) : Nat :=
  (ms.filter fun m => m.status = MappingStatus.rejected).length

/-- Source `allReviewed` (line 155): `pendingCount === 0`. -/
def allReviewed (ms : List MappingCandidate) : Bool :=
  pendingCount ms = 0

/-- The submit button is enabled iff not currently submitting and all reviewed
(line 420: `disabled={submitting || !allReviewed}`). -/
def submitEnabled (submitting : Bool) (ms : List MappingCandidate) : Bool :=
  !submitting && allReviewed ms

/-- The six review operations offered by the approval card UI. -/
inductive CardAction
  | approveOne (mappingId : String)
  | rejectOne (mappingId : String)
  | approveEvery
  | rejectEvery
  | approveSelected (selectedIds : List String)
  | rejectSelected (selectedIds : List String)

/-- Dispatch a card operation to its handler. -/
def applyCardAction : CardAction → List MappingCandidate → List MappingCandidate
  | CardAction.approveOne mappingId, ms => handleApprove mappingId ms
  | CardAction.rejectOne mappingId, ms => handleReject mappingId ms
  | CardAction.approveEvery, ms => handleApproveAll ms
  | CardAction.rejectEvery, ms => handleRejectAll ms
  | CardAction.approveSelected selectedIds, ms => handleApproveSelected selectedIds ms
  | CardAction.rejectSelected selectedIds, ms => handleRejectSelected selectedIds ms

/-! ## ETLProgressCard (src/unnamed/part_001, lines 492-536) -/

/-- Source `ETL_STEPS` (src/unnamed/part_001, lines 492-504): the fixed step table,
`(name, label)` pairs in source order. -/
def ETL_STEPS : List (String × String) :=
  [ ("download", "Download from GCS")
  , ("profiler", "Data Profiling")
  , ("staging", "Staging to BigQuery")
  , ("mapper", "Schema Mapping")
  , ("hitl", "Human Approval")
  , ("create_tables", "Create Target Tables")
  , ("transform", "Generate Transforms")
  , ("execute", "Execute Transforms")
  , ("validator", "Data Validation")
  , ("feedback", "Capture Feedback")
  , ("cleanup", "Cleanup") ]

/-- The step-name list exactly as the specification words it (spec §4.1:
"download, profile, stage, map, hitl, create_tables, transform, execute,
validate, feedback, cleanup"), for refinement comparison with `ETL_STEPS`. -/
def specStepNames : List String :=
  ["download", "profile", "stage", "map", "hitl", "create_tables",
   "transform", "execute", "validate", "feedback", "cleanup"]

/-- The clamp of `smoothProgress` (src/unnamed/part_001, line 526):
`Math.max(0, Math.min(100, overallProgress || 0))`. -/
def clampProgress (p : Int) : Int :=
  max 0 (min 100 p)

/-- The progress state of one mounted `ETLProgressCard`: the current `runId` prop
and the `maxProgressRef` ref (line 522). -/
structure ProgressView where
  runId : String
  maxProgress : Int
deriving DecidableEq

/-- One observation of the `overallProgress` prop (lines 522-536): the ref is reset
to 0 when `runId` changes, then `smoothProgress` raises it to the clamped new value
whenever that exceeds the stored maximum, and the raised value is what is displayed. -/
def observeProgress (v : ProgressView) (runId : String) (overallProgress : Int) : ProgressView :=
  let base := if runId = v.runId then v.maxProgress else 0
  let newProgress := clampProgress overallProgress
  { runId := runId, maxProgress := if newProgress > base then newProgress else base }

/-- Fold a sequence of progress observations for one run through the card. -/
def observeAll (v : ProgressView) (runId : String) (ps : List Int) : ProgressView :=
  ps.foldl (fun acc p => observeProgress acc runId p) v

/-! ## Concrete inputs used by counterexamples and witnesses -/

/-- A post-terminal duplicate `workflow_complete` event naming step `cleanup`
with step-level status `completed`. -/
def dupCompleteEvent : WorkflowUpdate :=
  { type := "workflow_complete", step := "cleanup", status := "completed"
    message := none, progress := 50, error := none
    data_mappings := none, data_transformations := none
    data_reviewed := none, data_pending := none }

/-- A latched, completed run state whose `cleanup` step record is in `error`. -/
def latchedErrorState : ChatState :=
  { currentRun :=
      { run_id := "r1", status := "completed", current_step := "completed"
        progress := 100, error := none }
    etlSteps := [{ name := "cleanup", status := StepStatus.error, message := none }]
    workflowCompleted := true, workflowCompletedRef := true
    hitlMappings := [], showHitlApproval := false, hitlReady := false
    workflowMappings := [], workflowTransformations := [] }

/-- A synthetic post-completion `cleanup` step event with status `started`. -/
def cleanupStartedEvent : WorkflowUpdate :=
  { type := "workflow_update", step := "cleanup", status := "started"
    message := some ("cleaning up"), progress := 10, error := none
    data_mappings := none, data_transformations := none
    data_reviewed := none, data_pending := none }

/-- A failing `transform` step event. -/
def transformFailedEvent : WorkflowUpdate :=
  { type := "workflow_update", step := "transform", status := "failed"
    message := some ("SQL generation failed"), progress := 55
    error := some ("SQL generation failed")
    data_mappings := none, data_transformations := none
    data_reviewed := none, data_pending := none }

/-- A mid-run, unlatched state: `transform` running, `validator` still pending. -/
def runningState : ChatState :=
  { currentRun :=
      { run_id := "r1", status := "running", current_step := "transform"
        progress := 50, error := none }
    etlSteps :=
      [ { name := "transform", status := StepStatus.running, message := none }
      , { name := "validator", status := StepStatus.pending, message := none } ]
    workflowCompleted := false, workflowCompletedRef := false
    hitlMappings := [], showHitlApproval := false, hitlReady := false
    workflowMappings := [], workflowTransformations := [] }

/-- A sample mapping candidate, `pending`. -/
def samplePending : MappingCandidate :=
  { mapping_id := "m1", source_table := "src", source_column := "a"
    target_table := "tgt", target_column := "b", confidence := 4/5
    rationale := "close name match", status := MappingStatus.pending }

/-- A sample mapping candidate, `approved`. -/
def sampleApproved : MappingCandidate :=
  { samplePending with mapping_id := "m2", status := MappingStatus.approved }

/-- A sample mapping candidate, `rejected`. -/
def sampleRejected : MappingCandidate :=
  { samplePending with mapping_id := "m3", status := MappingStatus.rejected }

/-! ## Handler lemmas -/

/-- On a `workflow_complete` event the handler takes exactly the PRIORITY 1 branch. -/
theorem handleEvent_of_complete (e : WorkflowUpdate) (s : ChatState)
    (h : e.type = "workflow_complete") :
    handleEvent e s =
      { s with
        workflowCompletedRef := true
        workflowCompleted := true
        etlSteps := completeSteps s.etlSteps
        currentRun := completeRun s.currentRun
        showHitlApproval := false
        hitlMappings := []
        hitlReady := false } := by
  unfold handleEvent
  rw [if_pos h]

/-- Once the completion latch is set, any event that is not `workflow_complete`
takes exactly the PRIORITY 2 branch: only the named step record is rewritten. -/
theorem handleEvent_of_latched (e : WorkflowUpdate) (s : ChatState)
    (hlatch : s.workflowCompletedRef = true ∨ s.workflowCompleted = true)
    (hne : e.type ≠ "workflow_complete") :
    handleEvent e s =
      { s with etlSteps := updateETLStep s.etlSteps e.step (postTerminalStepStatus e.status) e.message } := by
  unfold handleEvent
  rw [if_neg hne, if_pos hlatch]
  rfl

/-- The `workflow_complete` run patch fixes a run already carrying the completion
values. -/
theorem completeRun_fixed (r : Run) (h1 : r.status = "completed")
    (h2 : r.current_step = "completed") (h3 : r.progress = 100) :
    completeRun r = r := by
  cases r
  simp_all [completeRun]

/-- One handler step preserves the terminal latch and never changes the run record
of a latched state. -/
theorem terminalLatched_handleEvent (e : WorkflowUpdate) (s : ChatState)
    (h : terminalLatched s) :
    (handleEvent e s).currentRun = s.currentRun ∧ terminalLatched (handleEvent e s) := by
  obtain ⟨href, hst, hcs, hpr⟩ := h
  by_cases hc : e.type = "workflow_complete"
  · rw [handleEvent_of_complete e s hc]
    exact ⟨completeRun_fixed s.currentRun hst hcs hpr, rfl, rfl, rfl, rfl⟩
  · rw [handleEvent_of_latched e s (Or.inl href) hc]
    exact ⟨rfl, href, hst, hcs, hpr⟩

/-- Any stream of handler steps preserves the terminal latch and the run record. -/
theorem terminalLatched_handleEvents (es : List WorkflowUpdate) (t : ChatState)
    (h : terminalLatched t) :
    (handleEvents t es).currentRun = t.currentRun ∧ terminalLatched (handleEvents t es) := by
  induction es generalizing t with
  | nil => exact ⟨rfl, h⟩
  | cons e es ih =>
    obtain ⟨h1, h2⟩ := terminalLatched_handleEvent e t h
    obtain ⟨h3, h4⟩ := ih (handleEvent e t) h2
    exact ⟨h3.trans h1, h4⟩

/-! ## Claims -/

/-- C1: once a `workflow_complete` event has set the completion latch
(`workflowCompletedRef`), every stream of subsequently received events — including
synthetic cleanup-step events — leaves the run's externally observed `status`,
`progress` and `current_step` (the whole run record) unchanged. -/
theorem c1_latched_run_frozen (e0 : WorkflowUpdate) (s : ChatState)
    (es : List WorkflowUpdate) (h : e0.type = "workflow_complete") :
    (handleEvents (handleEvent e0 s) es).currentRun = (handleEvent e0 s).currentRun := by
  have hterm : terminalLatched (handleEvent e0 s) := by
    rw [handleEvent_of_complete e0 s h]
    exact ⟨rfl, rfl, rfl, rfl⟩
  exact (terminalLatched_handleEvents es (handleEvent e0 s) hterm).1

/-- Witness for C1: a completed run followed by a synthetic `cleanup` started
event keeps its run record. -/
theorem c1_latched_run_frozen_witness :
    (handleEvents (handleEvent dupCompleteEvent runningState) [cleanupStartedEvent]).currentRun
      = (handleEvent dupCompleteEvent runningState).currentRun :=
  c1_latched_run_frozen dupCompleteEvent runningState [cleanupStartedEvent] (by decide)

/-- C2: a `workflow_complete` event sets the run's status to `completed` and its
progress to 100, marks every step still `pending` or `running` as `completed`
(leaving other step records unchanged), and returns early: in particular the
mapper/transform data-storing logic further down the handler never runs for the
event, so `workflowMappings` and `workflowTransformations` are untouched. -/
theorem c2_complete_event_effect (e : WorkflowUpdate) (s : ChatState)
    (h : e.type = "workflow_complete") :
    (handleEvent e s).currentRun.status = "completed" ∧
    (handleEvent e s).currentRun.progress = 100 ∧
    (∀ i : Nat, ∀ st : ETLStep, s.etlSteps[i]? = some st →
      (handleEvent e s).etlSteps[i]? =
        some (if st.status = StepStatus.pending ∨ st.status = StepStatus.running then { st with status := StepStatus.completed, message := none } else st)) ∧
    (handleEvent e s).workflowMappings = s.workflowMappings ∧
    (handleEvent e s).workflowTransformations = s.workflowTransformations := by
  rw [handleEvent_of_complete e s h]
  refine ⟨rfl, rfl, ?_, rfl, rfl⟩
  intro i st hst
  simp [completeSteps, List.getElem?_map, hst]

/-- Witness for C2: the completion event applied to a mid-run state with a
running and a pending step. -/
theorem c2_complete_event_effect_witness :
    (handleEvent dupCompleteEvent runningState).currentRun.status = "completed" ∧
    (handleEvent dupCompleteEvent runningState).currentRun.progress = 100 ∧
    (∀ i : Nat, ∀ st : ETLStep, runningState.etlSteps[i]? = some st →
      (handleEvent dupCompleteEvent runningState).etlSteps[i]? =
        some (if st.status = StepStatus.pending ∨ st.status = StepStatus.running then { st with status := StepStatus.completed, message := none } else st)) ∧
    (handleEvent dupCompleteEvent runningState).workflowMappings = runningState.workflowMappings ∧
    (handleEvent dupCompleteEvent runningState).workflowTransformations
      = runningState.workflowTransformations :=
  c2_complete_event_effect dupCompleteEvent runningState (by decide)

/-- The PRIORITY 2 step-status mapping only produces `completed`, `error` or
`running`. -/
theorem postTerminalStepStatus_cases (st : String) :
    postTerminalStepStatus st = StepStatus.completed ∨
      postTerminalStepStatus st = StepStatus.error ∨
      postTerminalStepStatus st = StepStatus.running := by
  unfold postTerminalStepStatus
  split
  · exact Or.inl rfl
  split
  · exact Or.inr (Or.inl rfl)
  · exact Or.inr (Or.inr rfl)

/-- C3 (amended): for every event other than a `workflow_complete` event received
after the run is terminally latched, the handler applies the event's step-level
status — mapped to `completed`, `error` or `running` — to the named step's record
and modifies nothing else: the run record, both completion latches, all HITL
state and the stored mappings/transformations are untouched, and every step
record other than the named one is unchanged. (A duplicate `workflow_complete`
event is excluded: it re-enters the PRIORITY 1 completion branch instead, see
the counterexample.) -/
theorem c3_post_terminal_step_only (e : WorkflowUpdate) (s : ChatState)
    (hlatch : s.workflowCompletedRef = true ∨ s.workflowCompleted = true)
    (hne : e.type ≠ "workflow_complete") :
    (handleEvent e s).currentRun = s.currentRun ∧
    (handleEvent e s).workflowCompleted = s.workflowCompleted ∧
    (handleEvent e s).workflowCompletedRef = s.workflowCompletedRef ∧
    (handleEvent e s).hitlMappings = s.hitlMappings ∧
    (handleEvent e s).showHitlApproval = s.showHitlApproval ∧
    (handleEvent e s).hitlReady = s.hitlReady ∧
    (handleEvent e s).workflowMappings = s.workflowMappings ∧
    (handleEvent e s).workflowTransformations = s.workflowTransformations ∧
    (postTerminalStepStatus e.status = StepStatus.completed ∨
      postTerminalStepStatus e.status = StepStatus.error ∨
      postTerminalStepStatus e.status = StepStatus.running) ∧
    (∀ i : Nat, ∀ st : ETLStep, s.etlSteps[i]? = some st →
      (handleEvent e s).etlSteps[i]? =
        some (if st.name = e.step then { st with status := postTerminalStepStatus e.status, message := e.message } else st)) := by
  rw [handleEvent_of_latched e s hlatch hne]
  refine ⟨rfl, rfl, rfl, rfl, rfl, rfl, rfl, rfl, postTerminalStepStatus_cases e.status, ?_⟩
  intro i st hst
  simp [updateETLStep, List.getElem?_map, hst]

/-- Witness for C3 (amended): a post-completion `cleanup` started event rewrites
only the `cleanup` step record. -/
theorem c3_post_terminal_step_only_witness :
    (handleEvent cleanupStartedEvent latchedErrorState).currentRun = latchedErrorState.currentRun ∧
    (handleEvent cleanupStartedEvent latchedErrorState).workflowCompleted = latchedErrorState.workflowCompleted ∧
    (handleEvent cleanupStartedEvent latchedErrorState).workflowCompletedRef = latchedErrorState.workflowCompletedRef ∧
    (handleEvent cleanupStartedEvent latchedErrorState).hitlMappings = latchedErrorState.hitlMappings ∧
    (handleEvent cleanupStartedEvent latchedErrorState).showHitlApproval = latchedErrorState.showHitlApproval ∧
    (handleEvent cleanupStartedEvent latchedErrorState).hitlReady = latchedErrorState.hitlReady ∧
    (handleEvent cleanupStartedEvent latchedErrorState).workflowMappings = latchedErrorState.workflowMappings ∧
    (handleEvent cleanupStartedEvent latchedErrorState).workflowTransformations = latchedErrorState.workflowTransformations ∧
    (postTerminalStepStatus cleanupStartedEvent.status = StepStatus.completed ∨
      postTerminalStepStatus cleanupStartedEvent.status = StepStatus.error ∨
      postTerminalStepStatus cleanupStartedEvent.status = StepStatus.running) ∧
    (∀ i : Nat, ∀ st : ETLStep, latchedErrorState.etlSteps[i]? = some st →
      (handleEvent cleanupStartedEvent latchedErrorState).etlSteps[i]? =
        some (if st.name = cleanupStartedEvent.step then { st with status := postTerminalStepStatus cleanupStartedEvent.status, message := cleanupStartedEvent.message } else st)) :=
  c3_post_terminal_step_only cleanupStartedEvent latchedErrorState (Or.inl rfl) (by decide)

/-- Counterexample to C3 as stated: a duplicate `workflow_complete` event received
after the run is terminally latched is NOT downgraded to step-only telemetry.
Here the event names step `cleanup` and carries status `completed` (which the
claim's mapping sends to `completed`), yet the handler — taking the PRIORITY 1
branch again — leaves the `cleanup` record at `error` instead of applying the
mapped step status. -/
theorem c3_counterexample_dup_complete :
    latchedErrorState.workflowCompletedRef = true ∧
    dupCompleteEvent.step = "cleanup" ∧
    latchedErrorState.etlSteps[0]? =
      some { name := "cleanup", status := StepStatus.error, message := none } ∧
    postTerminalStepStatus dupCompleteEvent.status = StepStatus.completed ∧
    (handleEvent dupCompleteEvent latchedErrorState).etlSteps[0]? =
      some { name := "cleanup", status := StepStatus.error, message := none } ∧
    ¬ (handleEvent dupCompleteEvent latchedErrorState).etlSteps[0]? =
      some { name := "cleanup", status := StepStatus.completed, message := dupCompleteEvent.message } := by
  decide

/-- A workflow_update event carrying `failed` or `error` to an unlatched state
takes exactly the PRIORITY 4 branch with `workflowStatus = "failed"` and step
status `error`. -/
theorem handleEvent_of_failure (e : WorkflowUpdate) (s : ChatState)
    (h1 : s.workflowCompletedRef = false) (h2 : s.workflowCompleted = false)
    (ht : e.type = "workflow_update") (hs : e.status = "failed" ∨ e.status = "error") :
    handleEvent e s =
      { s with
        currentRun := { s.currentRun with status := "failed", current_step := e.step, progress := e.progress, error := e.error }
        etlSteps := updateETLStep s.etlSteps e.step StepStatus.error e.message } := by
  rcases hs with h | h <;> simp [handleEvent, ht, h1, h2, h]

/-- C4: a `workflow_update` event with status `failed` or `error`, received before
the run is terminal, sets the run's status to `failed`, records the supplied
error on the run, moves `current_step` to the failing step, and marks exactly the
named step's record `error` — every other step record is left unchanged, so no
later step is marked `running` or `completed` by that event. -/
theorem c4_failure_event_effect (e : WorkflowUpdate) (s : ChatState)
    (h1 : s.workflowCompletedRef = false) (h2 : s.workflowCompleted = false)
    (ht : e.type = "workflow_update") (hs : e.status = "failed" ∨ e.status = "error") :
    (handleEvent e s).currentRun.status = "failed" ∧
    (handleEvent e s).currentRun.error = e.error ∧
    (handleEvent e s).currentRun.current_step = e.step ∧
    (∀ i : Nat, ∀ st : ETLStep, s.etlSteps[i]? = some st →
      (handleEvent e s).etlSteps[i]? =
        some (if st.name = e.step then { st with status := StepStatus.error, message := e.message } else st)) := by
  rw [handleEvent_of_failure e s h1 h2 ht hs]
  refine ⟨rfl, rfl, rfl, ?_⟩
  intro i st hst
  simp [updateETLStep, List.getElem?_map, hst]

/-- Witness for C4: a failing `transform` event on a mid-run state. -/
theorem c4_failure_event_effect_witness :
    (handleEvent transformFailedEvent runningState).currentRun.status = "failed" ∧
    (handleEvent transformFailedEvent runningState).currentRun.error = transformFailedEvent.error ∧
    (handleEvent transformFailedEvent runningState).currentRun.current_step = transformFailedEvent.step ∧
    (∀ i : Nat, ∀ st : ETLStep, runningState.etlSteps[i]? = some st →
      (handleEvent transformFailedEvent runningState).etlSteps[i]? =
        some (if st.name = transformFailedEvent.step then { st with status := StepStatus.error, message := transformFailedEvent.message } else st)) :=
  c4_failure_event_effect transformFailedEvent runningState rfl rfl rfl (Or.inl rfl)

/-! ## Progress-card lemmas -/

/-- The clamp is bounded below by 0. -/
theorem clampProgress_nonneg (p : Int) : 0 ≤ clampProgress p :=
  le_max_left 0 _

/-- The clamp is bounded above by 100. -/
theorem clampProgress_le (p : Int) : clampProgress p ≤ 100 :=
  max_le (by norm_num) (min_le_left _ _)

/-- An observation with the run unchanged raises the ref to the maximum of the
stored value and the clamped new progress. -/
theorem observeProgress_maxProgress (v : ProgressView) (r : String) (p : Int)
    (h : v.runId = r) :
    (observeProgress v r p).maxProgress = max v.maxProgress (clampProgress p) := by
  unfold observeProgress
  rw [if_pos h.symm]
  dsimp only
  rcases le_or_lt (clampProgress p) v.maxProgress with hle | hlt
  · rw [if_neg (not_lt.mpr hle), max_eq_left hle]
  · rw [if_pos hlt, max_eq_right hlt.le]

/-- An observation for a different run resets the ref: the displayed value is just
the clamped fresh progress. -/
theorem observeProgress_reset (w : ProgressView) (r : String) (p : Int)
    (h : w.runId ≠ r) :
    (observeProgress w r p).maxProgress = clampProgress p := by
  unfold observeProgress
  rw [if_neg (fun hc => h hc.symm)]
  dsimp only
  rcases (clampProgress_nonneg p).lt_or_eq with hlt | heq
  · rw [if_pos hlt]
  · rw [if_neg (by omega)]
    exact heq

/-- Observations never change the stored run id. -/
theorem observeAll_runId (ps : List Int) (v : ProgressView) (r : String)
    (h : v.runId = r) : (observeAll v r ps).runId = r := by
  induction ps generalizing v with
  | nil => exact h
  | cons p ps ih => exact ih (observeProgress v r p) rfl

/-- Within one run, the displayed value is the running maximum of the clamped
progress values received. -/
theorem observeAll_eq_foldmax (ps : List Int) (v : ProgressView) (r : String)
    (h : v.runId = r) :
    (observeAll v r ps).maxProgress
      = ps.foldl (fun a p => max a (clampProgress p)) v.maxProgress := by
  induction ps generalizing v with
  | nil => rfl
  | cons p ps ih =>
    have hstep : observeAll v r (p :: ps) = observeAll (observeProgress v r p) r ps := rfl
    rw [hstep, ih (observeProgress v r p) rfl, List.foldl_cons,
      observeProgress_maxProgress v r p h]

/-- Within one run, observing more progress values never lowers the display. -/
theorem observeAll_mono (ps : List Int) (v : ProgressView) (r : String)
    (h : v.runId = r) : v.maxProgress ≤ (observeAll v r ps).maxProgress := by
  induction ps generalizing v with
  | nil => exact le_refl _
  | cons p ps ih =>
    have h1 : v.maxProgress ≤ (observeProgress v r p).maxProgress := by
      rw [observeProgress_maxProgress v r p h]
      exact le_max_left _ _
    exact h1.trans (ih (observeProgress v r p) rfl)

/-- The running maximum stays within [0, 100] when started there. -/
theorem foldmax_bounds (ps : List Int) (a : Int) (h0 : 0 ≤ a) (h1 : a ≤ 100) :
    0 ≤ ps.foldl (fun a p => max a (clampProgress p)) a ∧
      ps.foldl (fun a p => max a (clampProgress p)) a ≤ 100 := by
  induction ps generalizing a with
  | nil => exact ⟨h0, h1⟩
  | cons p ps ih =>
    rw [List.foldl_cons]
    exact ih (max a (clampProgress p)) (h0.trans (le_max_left _ _))
      (max_le h1 (clampProgress_le p))

/-- C5: within one run (as long as the `runId` prop does not change), the progress
displayed by the card is the clamped-to-[0,100] running maximum of the progress
values received: it never decreases when further values arrive, it equals the
fold of `max` over the clamped values, it stays within [0,100], and a `runId`
change resets the display to the clamped fresh value alone. -/
theorem c5_progress_monotone (v : ProgressView) (r : String) (ps qs : List Int)
    (h : v.runId = r) :
    (observeAll v r ps).maxProgress ≤ (observeAll v r (ps ++ qs)).maxProgress ∧
    (observeAll v r ps).maxProgress
      = ps.foldl (fun a p => max a (clampProgress p)) v.maxProgress ∧
    (0 ≤ v.maxProgress ∧ v.maxProgress ≤ 100 →
      0 ≤ (observeAll v r ps).maxProgress ∧ (observeAll v r ps).maxProgress ≤ 100) ∧
    (∀ w : ProgressView, ∀ p : Int, w.runId ≠ r →
      (observeProgress w r p).maxProgress = clampProgress p) := by
  refine ⟨?_, observeAll_eq_foldmax ps v r h, ?_, fun w p hw => observeProgress_reset w r p hw⟩
  · have happ : observeAll v r (ps ++ qs) = observeAll (observeAll v r ps) r qs :=
      List.foldl_append _ _ _ _
    rw [happ]
    exact observeAll_mono qs (observeAll v r ps) r (observeAll_runId ps v r h)
  · intro hb
    rw [observeAll_eq_foldmax ps v r h]
    exact foldmax_bounds ps v.maxProgress hb.1 hb.2

/-- Witness for C5: display after [30, 10] is 30 and never decreases after
a further [20]. -/
theorem c5_progress_monotone_witness :
    (observeAll { runId := "r1", maxProgress := 0 } ("r1") [30, 10]).maxProgress
      ≤ (observeAll { runId := "r1", maxProgress := 0 } ("r1") ([30, 10] ++ [20])).maxProgress ∧
    (observeAll { runId := "r1", maxProgress := 0 } ("r1") [30, 10]).maxProgress
      = [30, 10].foldl (fun a p => max a (clampProgress p)) ({ runId := "r1", maxProgress := 0 } : ProgressView).maxProgress ∧
    (0 ≤ ({ runId := "r1", maxProgress := 0 } : ProgressView).maxProgress ∧
        ({ runId := "r1", maxProgress := 0 } : ProgressView).maxProgress ≤ 100 →
      0 ≤ (observeAll { runId := "r1", maxProgress := 0 } ("r1") [30, 10]).maxProgress ∧
        (observeAll { runId := "r1", maxProgress := 0 } ("r1") [30, 10]).maxProgress ≤ 100) ∧
    (∀ w : ProgressView, ∀ p : Int, w.runId ≠ "r1" →
      (observeProgress w ("r1") p).maxProgress = clampProgress p) :=
  c5_progress_monotone { runId := "r1", maxProgress := 0 } "r1" [30, 10] [20] rfl

/-! ## Approval-card theorems -/

/-- C6: the submission function builds one decision per candidate, keyed by the
candidate's `mapping_id`; a candidate still `pending` is submitted as `approved`
(the implicit default-approve), while candidates already `approved` or `rejected`
are submitted with their status unchanged. -/
theorem c6_submit_defaults_pending (ms : List MappingCandidate) (i : Nat)
    (m : MappingCandidate) (h : ms[i]? = some m) :
    (submitApprovals ms).length = ms.length ∧
    ∃ d : ApprovalDecision, (submitApprovals ms)[i]? = some d ∧
      d.mapping_id = m.mapping_id ∧
      (m.status = MappingStatus.pending → d.status = MappingStatus.approved) ∧
      (m.status = MappingStatus.approved → d.status = MappingStatus.approved) ∧
      (m.status = MappingStatus.rejected → d.status = MappingStatus.rejected) := by
  refine ⟨by simp [submitApprovals], ?_⟩
  refine ⟨{ mapping_id := m.mapping_id, status := if m.status = MappingStatus.pending then MappingStatus.approved else m.status }, ?_, rfl, ?_, ?_, ?_⟩
  · simp [submitApprovals, List.getElem?_map, h]
  · intro hp
    rw [hp]
    simp
  · intro hp
    rw [hp]
    simp
  · intro hp
    rw [hp]
    simp

/-- Witness for C6: a batch holding one pending, one approved and one rejected
candidate; the pending one is submitted approved. -/
theorem c6_submit_defaults_pending_witness :
    (submitApprovals [samplePending, sampleApproved, sampleRejected]).length
      = ([samplePending, sampleApproved, sampleRejected] : List MappingCandidate).length ∧
    ∃ d : ApprovalDecision,
      (submitApprovals [samplePending, sampleApproved, sampleRejected])[0]? = some d ∧
      d.mapping_id = samplePending.mapping_id ∧
      (samplePending.status = MappingStatus.pending → d.status = MappingStatus.approved) ∧
      (samplePending.status = MappingStatus.approved → d.status = MappingStatus.approved) ∧
      (samplePending.status = MappingStatus.rejected → d.status = MappingStatus.rejected) :=
  c6_submit_defaults_pending [samplePending, sampleApproved, sampleRejected] 0 samplePending rfl

/-- Every candidate list splits exactly into its approved, rejected and pending
candidates. -/
theorem count_partition (ms : List MappingCandidate) :
    approvedCount ms + rejectedCount ms + pendingCount ms = ms.length := by
  unfold approvedCount rejectedCount pendingCount
  induction ms with
  | nil => rfl
  | cons m t ih =>
    cases h : m.status <;> simp [List.filter_cons, h] <;> omega

/-- C7: every approval-card operation — approve or reject one candidate, all
candidates, or the selected candidates — preserves the number of candidates;
the approved, rejected and pending counts always sum to that number; and the
all-reviewed submission gate holds exactly when the pending count is zero. -/
theorem c7_card_invariants (a : CardAction) (ms : List MappingCandidate) :
    (applyCardAction a ms).length = ms.length ∧
    approvedCount (applyCardAction a ms) + rejectedCount (applyCardAction a ms)
        + pendingCount (applyCardAction a ms) = (applyCardAction a ms).length ∧
    (allReviewed (applyCardAction a ms) = true ↔ pendingCount (applyCardAction a ms) = 0) := by
  refine ⟨?_, count_partition _, ?_⟩
  · cases a <;>
      simp [applyCardAction, handleApprove, handleReject, handleApproveAll,
        handleRejectAll, handleApproveSelected, handleRejectSelected]
  · simp [allReviewed]

/-- Approving the same candidate twice equals approving it once. -/
theorem handleApprove_idem (mappingId : String) (ms : List MappingCandidate) :
    handleApprove mappingId (handleApprove mappingId ms) = handleApprove mappingId ms := by
  unfold handleApprove
  rw [List.map_map]
  apply List.map_congr_left
  intro m _
  by_cases hm : m.mapping_id = mappingId <;> simp [hm]

/-- Rejecting the same candidate twice equals rejecting it once. -/
theorem handleReject_idem (mappingId : String) (ms : List MappingCandidate) :
    handleReject mappingId (handleReject mappingId ms) = handleReject mappingId ms := by
  unfold handleReject
  rw [List.map_map]
  apply List.map_congr_left
  intro m _
  by_cases hm : m.mapping_id = mappingId <;> simp [hm]

/-- C8: the per-candidate decision operations are idempotent — applying the same
approve or reject decision to the same `mapping_id` twice leaves the candidate
list identical to applying it once. -/
theorem c8_decision_idempotent (mappingId : String) (ms : List MappingCandidate) :
    handleApprove mappingId (handleApprove mappingId ms) = handleApprove mappingId ms ∧
    handleReject mappingId (handleReject mappingId ms) = handleReject mappingId ms :=
  ⟨handleApprove_idem mappingId ms, handleReject_idem mappingId ms⟩

/-- C9 (amended): the pipeline shown by the progress card consists of exactly 11
steps, in order, with the names `download, profiler, staging, mapper, hitl,
create_tables, transform, execute, validator, feedback, cleanup` — four of which
(`profiler`, `staging`, `mapper`, `validator`) differ from the names the
specification lists (`profile`, `stage`, `map`, `validate`). -/
theorem c9_step_names :
    ETL_STEPS.map Prod.fst =
      ["download", "profiler", "staging", "mapper", "hitl", "create_tables",
       "transform", "execute", "validator", "feedback", "cleanup"] ∧
    ETL_STEPS.length = 11 := by
  constructor <;> rfl

/-- Counterexample to C9 as stated: the step names used by the program do not
equal the specification's list — already at index 1 the program says `profiler`
where the specification says `profile` (similarly `staging`/`stage`,
`mapper`/`map`, `validator`/`validate`). -/
theorem c9_counterexample_step_names :
    ETL_STEPS.map Prod.fst ≠ specStepNames ∧
    (ETL_STEPS.map Prod.fst)[1]? = some ("profiler") ∧
    specStepNames[1]? = some ("profile") ∧
    (ETL_STEPS.map Prod.fst)[2]? = some ("staging") ∧ specStepNames[2]? = some ("stage") ∧
    (ETL_STEPS.map Prod.fst)[3]? = some ("mapper") ∧ specStepNames[3]? = some ("map") ∧
    (ETL_STEPS.map Prod.fst)[8]? = some ("validator") ∧ specStepNames[8]? = some ("validate") := by
  refine ⟨?_, rfl, rfl, rfl, rfl, rfl, rfl, rfl, rfl⟩
  decide

/-- C10: whenever the submit button is enabled (not already submitting and the
all-reviewed gate holds), the pending count is zero, so the batch submitted
contains one decision per candidate, each carrying the candidate's own reviewed
status — the pending-to-approved fallback of the submission function never fires
— and every submitted status is `approved` or `rejected`, never `pending`. -/
theorem c10_guarded_submit (submitting : Bool) (ms : List MappingCandidate)
    (h : submitEnabled submitting ms = true) :
    pendingCount ms = 0 ∧
    (submitApprovals ms).length = ms.length ∧
    (∀ i : Nat, ∀ m : MappingCandidate, ms[i]? = some m →
      (submitApprovals ms)[i]? = some { mapping_id := m.mapping_id, status := m.status } ∧
      (m.status = MappingStatus.approved ∨ m.status = MappingStatus.rejected)) := by
  have hp : pendingCount ms = 0 := by
    have := h
    unfold submitEnabled allReviewed at this
    simp at this
    exact this.2
  have hnotpending : ∀ m ∈ ms, ¬ m.status = MappingStatus.pending := by
    unfold pendingCount at hp
    intro m hm
    have := List.filter_eq_nil_iff.mp (List.eq_nil_of_length_eq_zero hp) m hm
    simpa using this
  refine ⟨hp, by simp [submitApprovals], ?_⟩
  intro i m hi
  have hm : m ∈ ms := by
    obtain ⟨hlt, hEq⟩ := List.getElem?_eq_some_iff.mp hi
    exact hEq ▸ List.getElem_mem hlt
  have hnp := hnotpending m hm
  constructor
  · simp [submitApprovals, List.getElem?_map, hi, hnp]
  · cases hst : m.status with
    | pending => exact absurd hst hnp
    | approved => exact Or.inl rfl
    | rejected => exact Or.inr rfl

/-- Witness for C10: an all-reviewed batch (one approved, one rejected) with the
button enabled. -/
theorem c10_guarded_submit_witness :
    pendingCount [sampleApproved, sampleRejected] = 0 ∧
    (submitApprovals [sampleApproved, sampleRejected]).length
      = ([sampleApproved, sampleRejected] : List MappingCandidate).length ∧
    (∀ i : Nat, ∀ m : MappingCandidate, ([sampleApproved, sampleRejected] : List MappingCandidate)[i]? = some m →
      (submitApprovals [sampleApproved, sampleRejected])[i]?
          = some { mapping_id := m.mapping_id, status := m.status } ∧
      (m.status = MappingStatus.approved ∨ m.status = MappingStatus.rejected)) :=
  c10_guarded_submit false [sampleApproved, sampleRejected] rfl

end AIMagna
